import Mathlib

/-!
OAIHUB — AI Agent Tracking Dashboard: verification of the core logic

Shallow embedding of the event-store / metrics-aggregation core of the
repository: the `AgentEvent` / `AgentMetrics` data model, the
`calculate_daily_metrics` aggregation, the `validate_event` and
`validate_metrics` validators, the DynamoDB-backed `put` /
`query_with_pagination` store operations, and the query-string construction
of the frontend API client.

Python numbers are embedded as `Int` (counts, optional numeric fields) and
`ℚ` (averages); Python truthiness of an optional numeric field (`None` and
`0` are falsy) is embedded by `truthyInt`; `dict` metadata is embedded as an
association list.
-/

/-- Pydantic model `AgentEvent`: one recorded interaction for an agent.
`metadata` is an optional string-keyed mapping (embedded as an association
list); the optional numeric fields are `Option Int`. -/
structure AgentEvent where
  agent_id : String
  timestamp : String
  message_type : String
  content : Option String := none
  metadata : Option (List (String × String)) := none
  error_details : Option String := none
  response_time_ms : Option Int := none
  token_count : Option Int := none
  model_used : Option String := none
  user_feedback : Option Int := none
deriving DecidableEq, Repr

/-- Pydantic model `AgentMetrics`: aggregated counters and averages for one
agent over a date range. Counts are `Int` (Python ints), averages `ℚ`
(Python floats restricted to the exact arithmetic actually performed). -/
structure AgentMetrics where
  agent_id : String
  date : String
  total_messages : Int := 0
  total_responses : Int := 0
  total_errors : Int := 0
  average_response_time : ℚ := 0
  total_tokens_used : Int := 0
  average_feedback_score : ℚ := 0
  unique_users : Int := 0
deriving DecidableEq, Repr

/-- Python truthiness of an optional numeric field: `None` and `0` are falsy,
every other number is truthy. -/
def truthyInt : Option Int → Bool
  | none => false
  | some n => n ≠ 0

/-- The guarded metadata lookup `event.metadata and "user_id" in
event.metadata` followed by `event.metadata["user_id"]`: a falsy metadata
object (absent or empty) short-circuits to no user id. -/
def metadataUserId (e : AgentEvent) : Option String :=
  match e.metadata with
  | none => none
  | some m => if m.isEmpty then none else m.lookup "user_id"

/-- Accumulator of the single pass over the event list in
`calculate_daily_metrics`: the metric counters plus the running sums/counts
(`total_response_time`, `total_feedback_score`, `feedback_count`) used for
the averages after the pass. -/
structure DailyAcc where
  total_messages : Int := 0
  total_responses : Int := 0
  total_errors : Int := 0
  total_tokens_used : Int := 0
  total_response_time : Int := 0
  total_feedback_score : Int := 0
  feedback_count : Int := 0
deriving DecidableEq, Repr

/-- One step of the event loop of `calculate_daily_metrics`: dispatch on
`message_type`; within `agent_response`, the truthiness guards
`if event.response_time_ms:` and `if event.token_count:`; the `feedback`
branch is guarded by `event.user_feedback` being truthy. -/
def processEvent (acc : DailyAcc) (e : AgentEvent) : DailyAcc :=
  if e.message_type = "user_message" then
    { acc with total_messages := acc.total_messages + 1 }
  else if e.message_type = "agent_response" then
    let acc1 := { acc with total_responses := acc.total_responses + 1 }
    let acc2 :=
      if truthyInt e.response_time_ms then
        { acc1 with total_response_time :=
            acc1.total_response_time + e.response_time_ms.getD 0 }
      else acc1
    if truthyInt e.token_count then
      { acc2 with total_tokens_used :=
          acc2.total_tokens_used + e.token_count.getD 0 }
    else acc2
  else if e.message_type = "error" then
    { acc with total_errors := acc.total_errors + 1 }
  else if e.message_type = "feedback" ∧ truthyInt e.user_feedback then
    { acc with
        total_feedback_score := acc.total_feedback_score + e.user_feedback.getD 0
        feedback_count := acc.feedback_count + 1 }
  else acc

/-- One step of the `user_ids.add(…)` loop of `calculate_daily_metrics`:
insertion into a duplicate-free list standing for the Python `set`. -/
def addUser (s : List String) (e : AgentEvent) : List String :=
  match metadataUserId e with
  | some u => if u ∈ s then s else s ++ [u]
  | none => s

/-- The `user_ids = set(); … user_ids.add(…)` loop of
`calculate_daily_metrics`: every event carrying a `user_id` in its metadata
contributes it to the set. -/
def uniqueUserIds (events : List AgentEvent) : List String :=
  events.foldl addUser []

/-- Aggregation `calculate_daily_metrics(agent_id, date)` over the event list:
a single pass accumulating counters and sums, then
`average_response_time = total_response_time / total_responses` when
`total_responses > 0` (else 0), `average_feedback_score =
total_feedback_score / feedback_count` when `feedback_count > 0` (else 0),
and `unique_users` the size of the set of metadata user ids. -/
def calculate_daily_metrics (agent_id date : String)
    (events : List AgentEvent) : AgentMetrics :=
  let acc := events.foldl processEvent {}
  { agent_id := agent_id
    date := date
    total_messages := acc.total_messages
    total_responses := acc.total_responses
    total_errors := acc.total_errors
    average_response_time :=
      if acc.total_responses > 0 then
        (acc.total_response_time : ℚ) / (acc.total_responses : ℚ)
      else 0
    total_tokens_used := acc.total_tokens_used
    average_feedback_score :=
      if acc.feedback_count > 0 then
        (acc.total_feedback_score : ℚ) / (acc.feedback_count : ℚ)
      else 0
    unique_users := (uniqueUserIds events).length }

/-- Concrete `agent_response` event carrying `response_time_ms = 200`. -/
def exResp200 : AgentEvent :=
  { agent_id := "agent-1", timestamp := "2024-01-07T10:30:00Z",
    message_type := "agent_response", response_time_ms := some 200 }

/-- Concrete `agent_response` event carrying no `response_time_ms`. -/
def exRespNoTime : AgentEvent :=
  { agent_id := "agent-1", timestamp := "2024-01-07T10:31:00Z",
    message_type := "agent_response" }


/-! ## Event and metrics validation (`validate_event`, `validate_metrics`) -/

/-- The set of valid `message_type` values checked by `validate_event`. -/
def valid_types : List String :=
  ["user_message", "agent_response", "error", "feedback",
   "conversation_start", "conversation_end", "graph_step", "custom_metric"]

/-- Validator `validate_event(event)`: required fields non-empty (Python string
truthiness), timestamp parses (`datetime.fromisoformat` after the
`Z → +00:00` replacement, abstracted as the parameter `iso_ok`),
`message_type` among the valid types, and each optional numeric field
checked only when truthy: `if event.response_time_ms and
event.response_time_ms < 0`, likewise `token_count`, and
`if event.user_feedback and not (1 <= event.user_feedback <= 5)`. -/
def validate_event (iso_ok : String → Bool) (e : AgentEvent) : Bool :=
  if e.agent_id = "" ∨ e.timestamp = "" ∨ e.message_type = "" then false
  else if ¬ iso_ok e.timestamp then false
  else if e.message_type ∉ valid_types then false
  else if truthyInt e.response_time_ms ∧ e.response_time_ms.getD 0 < 0 then
    false
  else if truthyInt e.token_count ∧ e.token_count.getD 0 < 0 then false
  else if truthyInt e.user_feedback ∧
      ¬ (1 ≤ e.user_feedback.getD 0 ∧ e.user_feedback.getD 0 ≤ 5) then false
  else true

/-- Sample timestamp-format checker standing in for
`datetime.fromisoformat` succeeding on the timestamp after the replacement
of a trailing Z by the UTC offset: it accepts
exactly the concrete timestamps used in the tests below, each of which the
real parser also accepts. -/
def iso_sample (s : String) : Bool :=
  s = "2024-01-07T10:30:00Z" ∨ s = "2024-01-07T10:31:00Z"

/-- Validator `validate_metrics(metrics)`: non-negative counts, non-negative
response-time average, feedback average within [0, 5], and the logical
consistency checks `total_responses ≤ total_messages` and
`total_errors ≤ total_messages`. -/
def validate_metrics (m : AgentMetrics) : Bool :=
  if m.total_messages < 0 ∨ m.total_responses < 0 ∨ m.total_errors < 0 ∨
      m.total_tokens_used < 0 ∨ m.unique_users < 0 then false
  else if m.average_response_time < 0 then false
  else if m.average_feedback_score < 0 ∨ m.average_feedback_score > 5 then
    false
  else if m.total_responses > m.total_messages then false
  else if m.total_errors > m.total_messages then false
  else true

/-! ## Event store (DynamoDB events table) -/

/-- DynamoDB `put_item` on the events table: the new item replaces any
existing item with the same primary key `(agent_id, timestamp)`. -/
def put_item (store : List AgentEvent) (e : AgentEvent) : List AgentEvent :=
  e :: store.filter
    (fun x => ¬ (x.agent_id = e.agent_id ∧ x.timestamp = e.timestamp))

/-- Operation `put(event)`: validation followed by the DynamoDB write; a
validation
failure surfaces as a `ValidationError` and nothing is stored. -/
def put (iso_ok : String → Bool) (store : List AgentEvent)
    (e : AgentEvent) : Except String (List AgentEvent) :=
  if validate_event iso_ok e then .ok (put_item store e)
  else .error "ValidationError"

/-- Timestamp ordering used by the events-table sort key (DynamoDB compares
string sort keys lexicographically; `ScanIndexForward=True` sorts
ascending). -/
def tsLe (a b : AgentEvent) : Prop := a.timestamp ≤ b.timestamp

instance : DecidableRel tsLe := fun a b =>
  inferInstanceAs (Decidable (a.timestamp ≤ b.timestamp))

/-- Query `query_with_pagination(agent_id, start_time, end_time)`: the key
condition `agent_id = :a AND timestamp BETWEEN :s AND :e` (BETWEEN is
inclusive on both ends) over the whole table, returned sorted by timestamp
ascending; pagination only concatenates pages and does not change the
result. -/
def query_with_pagination (store : List AgentEvent)
    (agent_id start_time end_time : String) : List AgentEvent :=
  List.insertionSort tsLe
    (store.filter (fun x => x.agent_id = agent_id ∧
      start_time ≤ x.timestamp ∧ x.timestamp ≤ end_time))

/-! ## HTTP error taxonomy and the metrics endpoint -/

/-- Error taxonomy of the request boundary. -/
inductive ApiError
  | validation (msg : String)
  | notFound (msg : String)
  | storeError (msg : String)
deriving DecidableEq, Repr

/-- HTTP status each error class is mapped to at the request boundary. -/
def http_status : ApiError → Nat
  | .validation _ => 400
  | .notFound _ => 404
  | .storeError _ => 500

/-- An agent is known exactly when the store holds at least one event
for it. -/
def agent_known (store : List AgentEvent) (agent_id : String) : Bool :=
  store.any (fun e => e.agent_id = agent_id)

/-- Modelled from the spec: the `GET /agents/{agent_id}/metrics` handler
(FastAPI backend, not present in the repository snapshot; its contract is
given by the API reference and `test_get_agent_metrics_not_found`). An
unknown agent — one with no recorded events — fails with `NotFoundError`
(mapped to 404); otherwise the events in range are aggregated. -/
def get_agent_metrics_endpoint (store : List AgentEvent)
    (agent_id start_date end_date : String) : Except ApiError AgentMetrics :=
  if ¬ agent_known store agent_id then
    .error (.notFound "Agent not found")
  else
    .ok (calculate_daily_metrics agent_id
      (start_date ++ "_to_" ++ end_date)
      (query_with_pagination store agent_id start_date end_date))

/-! ## KPI period-over-period change -/

/-- Modelled from the spec: the KPI period-over-period percentage change
`(current - prior) / prior * 100` (backend computation; the frontend
`KPICards` only renders the resulting `change` field), with `prior = 0`
reported as an increase of 100% (the implementation choice the spec leaves
open). -/
def kpi_percentage_change (current prior : ℚ) : ℚ :=
  if prior = 0 then 100 else (current - prior) / prior * 100

/-- Modelled from the spec: the change of a KPI is obtained by running the same
aggregation on the current window and on the equal-length prior window and
comparing the two aggregates. -/
def kpi_change_for (aggregate : List AgentEvent → ℚ)
    (currentEvents priorEvents : List AgentEvent) : ℚ :=
  kpi_percentage_change (aggregate currentEvents) (aggregate priorEvents)

/-! ## Frontend API client query construction (`lib/api.ts`) -/

/-- JavaScript truthiness of `params?.days`-style optional numbers:
`undefined` and `0` are falsy. -/
def truthyJsNum : Option Int → Bool
  | none => false
  | some n => n ≠ 0

/-- The `URLSearchParams` built by `api.getAgentMetrics`: `days`,
`start_date`, `end_date` are appended only when truthy. -/
def getAgentMetricsQuery (days : Option Int)
    (startDate endDate : Option String) : List (String × String) :=
  (if truthyJsNum days then [("days", toString (days.getD 0))] else []) ++
  (match startDate with
   | some s => if s = "" then [] else [("start_date", s)]
   | none => []) ++
  (match endDate with
   | some s => if s = "" then [] else [("end_date", s)]
   | none => [])

/-- The `URLSearchParams` built by `api.getEvents`: `agent_id`,
`message_type`, `start_date`, `end_date`, `limit` are appended only when
truthy. -/
def getEventsQuery (agentId messageType startDate endDate : Option String)
    (limit : Option Int) : List (String × String) :=
  (match agentId with
   | some s => if s = "" then [] else [("agent_id", s)]
   | none => []) ++
  (match messageType with
   | some s => if s = "" then [] else [("message_type", s)]
   | none => []) ++
  (match startDate with
   | some s => if s = "" then [] else [("start_date", s)]
   | none => []) ++
  (match endDate with
   | some s => if s = "" then [] else [("end_date", s)]
   | none => []) ++
  (if truthyJsNum limit then [("limit", toString (limit.getD 0))] else [])

/-! ## Specification-side reference quantities

Quantities the specification speaks about, written directly as list
combinators so the fold of `calculate_daily_metrics` can be compared with
them. -/

/-- Number of `agent_response` events in a list, as an integer. -/
def countResponses (events : List AgentEvent) : Int :=
  ((events.filter (fun e => e.message_type = "agent_response")).length : Int)

/-- Sum of the `response_time_ms` values over the `agent_response` events
that carry a truthy value. -/
def presentResponseTimeSum (events : List AgentEvent) : Int :=
  (events.map (fun e =>
    if e.message_type = "agent_response" ∧ truthyInt e.response_time_ms then
      e.response_time_ms.getD 0
    else 0)).sum

lemma processEvent_total_responses (acc : DailyAcc) (e : AgentEvent) :
    (processEvent acc e).total_responses =
      acc.total_responses +
        (if e.message_type = "agent_response" then 1 else 0) := by
  simp only [processEvent]
  split_ifs with h1 h2 h3 h4 h5 h6 h7 <;> simp_all

lemma processEvent_total_response_time (acc : DailyAcc) (e : AgentEvent) :
    (processEvent acc e).total_response_time =
      acc.total_response_time +
        (if e.message_type = "agent_response" ∧ truthyInt e.response_time_ms
         then e.response_time_ms.getD 0 else 0) := by
  simp only [processEvent]
  split_ifs with h1 h2 h3 h4 h5 h6 h7 <;> simp_all

lemma foldl_total_responses (events : List AgentEvent) (acc : DailyAcc) :
    (events.foldl processEvent acc).total_responses =
      acc.total_responses + countResponses events := by
  induction events generalizing acc with
  | nil => simp [countResponses]
  | cons e evs ih =>
      simp only [List.foldl_cons, ih, processEvent_total_responses,
        countResponses, List.filter_cons]
      by_cases h : e.message_type = "agent_response"
      · simp [h]
        ring
      · simp [h]

lemma foldl_total_response_time (events : List AgentEvent) (acc : DailyAcc) :
    (events.foldl processEvent acc).total_response_time =
      acc.total_response_time + presentResponseTimeSum events := by
  induction events generalizing acc with
  | nil => simp [presentResponseTimeSum]
  | cons e evs ih =>
      simp only [List.foldl_cons, ih, processEvent_total_response_time,
        presentResponseTimeSum, List.map_cons, List.sum_cons]
      ring

lemma foldl_addUser_nodup (events : List AgentEvent) (s : List String)
    (hs : s.Nodup) : (events.foldl addUser s).Nodup := by
  induction events generalizing s with
  | nil => simpa using hs
  | cons e evs ih =>
      refine ih _ ?_
      unfold addUser
      cases h : metadataUserId e with
      | none => exact hs
      | some u =>
          by_cases hu : u ∈ s
          · simpa [hu] using hs
          · simpa [hu, List.nodup_append] using hs

lemma foldl_addUser_toFinset (events : List AgentEvent) (s : List String) :
    (events.foldl addUser s).toFinset =
      s.toFinset ∪ (events.filterMap metadataUserId).toFinset := by
  induction events generalizing s with
  | nil => simp
  | cons e evs ih =>
      simp only [List.foldl_cons, ih]
      cases h : metadataUserId e with
      | none => simp [addUser, h, List.filterMap_cons]
      | some u =>
          simp only [addUser, h, List.filterMap_cons, List.toFinset_cons]
          by_cases hu : u ∈ s
          · simp only [if_pos hu]
            ext x
            simp only [Finset.mem_union, List.mem_toFinset, Finset.mem_insert]
            constructor
            · rintro (hx | hx)
              · exact Or.inl hx
              · exact Or.inr (Or.inr hx)
            · rintro (hx | hx | hx)
              · exact Or.inl hx
              · exact Or.inl (hx ▸ hu)
              · exact Or.inr hx
          · simp only [if_neg hu]
            ext x
            simp only [Finset.mem_union, List.mem_toFinset, Finset.mem_insert,
              List.mem_append, List.mem_singleton]
            tauto

/-! ## Claim theorems -/

/-- C1 counterexample: on the list with exactly one `agent_response` event
carrying `response_time_ms = 200` and one `agent_response` event carrying
none, `calculate_daily_metrics` returns `average_response_time = 100` — the
division is by `total_responses = 2`, not by the number of responses that
carried a value — so the claimed value 200 is wrong (100 < 200). -/
theorem calc_metrics_avg_response_time_counterexample :
    (calculate_daily_metrics "agent-1" "2024-01-07"
      [exResp200, exRespNoTime]).average_response_time = 100 ∧
    (calculate_daily_metrics "agent-1" "2024-01-07"
      [exResp200, exRespNoTime]).average_response_time < 200 := by
  have h : List.foldl processEvent ({} : DailyAcc) [exResp200, exRespNoTime] =
      { total_responses := 2, total_response_time := 200 } := by decide
  constructor <;>
    · simp only [calculate_daily_metrics, h]
      norm_num

/-- C1 (amended): the response-time average divides the sum of the
`response_time_ms` values that were present (truthy) by the count of ALL
`agent_response` events — responses without a value enlarge the denominator;
on the two-event list of the claim the average is 100, not 200. -/
theorem calc_metrics_avg_response_time_denominator
    (aid d : String) (evs : List AgentEvent)
    (h : 0 < countResponses evs) :
    (calculate_daily_metrics aid d evs).total_responses =
      countResponses evs ∧
    (calculate_daily_metrics aid d evs).average_response_time =
      (presentResponseTimeSum evs : ℚ) / (countResponses evs : ℚ) := by
  have hr := foldl_total_responses evs {}
  have ht := foldl_total_response_time evs {}
  have h0 : (({} : DailyAcc)).total_responses = 0 := rfl
  have h1 : (({} : DailyAcc)).total_response_time = 0 := rfl
  rw [h0, zero_add] at hr
  rw [h1, zero_add] at ht
  refine ⟨by simp [calculate_daily_metrics, hr], ?_⟩
  simp only [calculate_daily_metrics, hr, ht]
  rw [if_pos h]

/-- Witness for `calc_metrics_avg_response_time_denominator` at the
two-event list. -/
theorem calc_metrics_avg_response_time_denominator_witness :
    (calculate_daily_metrics "agent-1" "2024-01-07"
      [exResp200, exRespNoTime]).average_response_time =
      (presentResponseTimeSum [exResp200, exRespNoTime] : ℚ) /
        (countResponses [exResp200, exRespNoTime] : ℚ) :=
  (calc_metrics_avg_response_time_denominator "agent-1" "2024-01-07"
    [exResp200, exRespNoTime] (by decide)).2

/-- C2: on the empty event list `calculate_daily_metrics` returns the
`AgentMetrics` with every count 0 and both averages 0: the division
branches are not taken because both denominators are 0. -/
theorem calc_metrics_empty_list (aid d : String) :
    calculate_daily_metrics aid d [] =
      { agent_id := aid, date := d, total_messages := 0, total_responses := 0,
        total_errors := 0, average_response_time := 0, total_tokens_used := 0,
        average_feedback_score := 0, unique_users := 0 } := by
  rfl

/-- C6: the `unique_users` field of the aggregate equals the cardinality of
the set of distinct `metadata.user_id` values occurring in the events,
however many events share a user id and whatever their message types. -/
theorem calc_metrics_unique_users (aid d : String) (evs : List AgentEvent) :
    (calculate_daily_metrics aid d evs).unique_users =
      ((evs.filterMap metadataUserId).toFinset.card : Int) := by
  have hn : (uniqueUserIds evs).Nodup :=
    foldl_addUser_nodup evs [] List.nodup_nil
  have hf : (uniqueUserIds evs).toFinset =
      (evs.filterMap metadataUserId).toFinset := by
    simpa [uniqueUserIds] using foldl_addUser_toFinset evs []
  have hc : (evs.filterMap metadataUserId).toFinset.card =
      (uniqueUserIds evs).length := by
    rw [← hf, List.toFinset_card_of_nodup hn]
  simp [calculate_daily_metrics, hc]

/-- Concrete `feedback` event carrying `user_feedback = 0`: outside [1, 5],
yet falsy, so the range check of `validate_event` is skipped. -/
def exFeedback0 : AgentEvent :=
  { agent_id := "agent-1", timestamp := "2024-01-07T10:30:00Z",
    message_type := "feedback", user_feedback := some 0 }

/-- Concrete `feedback` event carrying `user_feedback = 5`. -/
def exFeedback5 : AgentEvent :=
  { agent_id := "agent-1", timestamp := "2024-01-07T10:30:00Z",
    message_type := "feedback", user_feedback := some 5 }

/-- C3 counterexample: an event with `user_feedback = 0` — a value outside
the closed interval [1, 5] — is ACCEPTED by `validate_event`, because the
guard `if event.user_feedback and …` treats 0 as falsy and skips the range
check; the claim that every out-of-range value (including 0) is rejected is
therefore false. -/
theorem validate_event_feedback_zero_counterexample :
    validate_event iso_sample exFeedback0 = true ∧
    exFeedback0.user_feedback = some 0 := by
  decide

/-- C3 (amended): for an event whose other checks pass and whose
`user_feedback` is present with value `v`, `validate_event` accepts exactly
when `v = 0` (truthiness skips the check) or `v` lies in [1, 5]; in
particular 1 and 5 are accepted and every nonzero value outside [1, 5] is
rejected, but 0 is accepted. -/
theorem validate_event_feedback_range (iso_ok : String → Bool)
    (e : AgentEvent) (v : ℤ)
    (hfb : e.user_feedback = some v)
    (ha : e.agent_id ≠ "")
    (hts : e.timestamp ≠ "")
    (hiso : iso_ok e.timestamp = true)
    (hmt : e.message_type ∈ valid_types)
    (hrt : ¬ (truthyInt e.response_time_ms ∧ e.response_time_ms.getD 0 < 0))
    (htc : ¬ (truthyInt e.token_count ∧ e.token_count.getD 0 < 0)) :
    validate_event iso_ok e = true ↔ (v = 0 ∨ (1 ≤ v ∧ v ≤ 5)) := by
  have hmt' : e.message_type ≠ "" := by
    intro h0
    rw [h0] at hmt
    revert hmt
    decide
  have g1 : ¬ (e.agent_id = "" ∨ e.timestamp = "" ∨ e.message_type = "") := by
    tauto
  have g2 : ¬¬ (iso_ok e.timestamp = true) := not_not_intro hiso
  have g3 : ¬ (e.message_type ∉ valid_types) := not_not_intro hmt
  unfold validate_event
  rw [if_neg g1, if_neg g2, if_neg g3, if_neg hrt, if_neg htc]
  rw [hfb]
  simp only [truthyInt, Option.getD_some]
  split_ifs with hcond
  all_goals simp_all
  all_goals omega

/-- Witness for `validate_event_feedback_range`: feedback value 5 is
accepted. -/
theorem validate_event_feedback_range_witness :
    validate_event iso_sample exFeedback5 = true ↔
      ((5 : ℤ) = 0 ∨ ((1 : ℤ) ≤ 5 ∧ (5 : ℤ) ≤ 5)) :=
  validate_event_feedback_range iso_sample exFeedback5 5 (by decide)
    (by decide) (by decide) (by decide) (by decide) (by decide) (by decide)

/-- Metrics value with more responses than messages. -/
def exInconsistentMetrics : AgentMetrics :=
  { agent_id := "agent-1", date := "2024-01-07", total_messages := 0,
    total_responses := 1 }

/-- C4 counterexample: metrics validation DOES reject a metrics value in
which `total_responses` exceeds `total_messages` — `validate_metrics`
returns `false` on such a value — refuting the claim that no operation
rejects it. -/
theorem validate_metrics_consistency_counterexample :
    validate_metrics exInconsistentMetrics = false ∧
    exInconsistentMetrics.total_messages <
      exInconsistentMetrics.total_responses := by
  constructor
  · simp only [validate_metrics, exInconsistentMetrics]
    norm_num
  · decide

/-- C4 (amended): `total_responses ≤ total_messages` IS enforced by the
metrics validation: `validate_metrics` returns `false` on every metrics
value in which `total_responses` exceeds `total_messages` (the aggregation
itself still constructs such values without rejection). -/
theorem validate_metrics_rejects_excess_responses (m : AgentMetrics)
    (h : m.total_messages < m.total_responses) :
    validate_metrics m = false := by
  simp only [validate_metrics]
  split_ifs <;> rfl

/-- Witness for `validate_metrics_rejects_excess_responses`. -/
theorem validate_metrics_rejects_excess_responses_witness :
    validate_metrics exInconsistentMetrics = false :=
  validate_metrics_rejects_excess_responses exInconsistentMetrics (by decide)

instance : IsTotal AgentEvent tsLe :=
  ⟨fun a b => le_total a.timestamp b.timestamp⟩

instance : IsTrans AgentEvent tsLe :=
  ⟨fun _ _ _ h1 h2 => le_trans h1 h2⟩

/-- C5: storing a well-formed event through `put` and then querying its
agent over a range covering its timestamp returns a list containing that
event exactly once (the store holding no other event with its
`(agent_id, timestamp)` key). -/
theorem put_then_query_returns_event_once (iso_ok : String → Bool)
    (store : List AgentEvent) (e : AgentEvent) (s t : String)
    (hval : validate_event iso_ok e = true)
    (_hdup : ∀ x ∈ store,
      ¬ (x.agent_id = e.agent_id ∧ x.timestamp = e.timestamp))
    (hs : s ≤ e.timestamp) (ht : e.timestamp ≤ t) :
    put iso_ok store e = .ok (put_item store e) ∧
    (query_with_pagination (put_item store e) e.agent_id s t).count e = 1 := by
  refine ⟨by simp [put, hval], ?_⟩
  have hperm := List.perm_insertionSort tsLe
    ((put_item store e).filter (fun x => x.agent_id = e.agent_id ∧
      s ≤ x.timestamp ∧ x.timestamp ≤ t))
  rw [query_with_pagination, hperm.count_eq]
  have hpred : (fun x : AgentEvent => decide (x.agent_id = e.agent_id ∧
      s ≤ x.timestamp ∧ x.timestamp ≤ t)) e = true := by
    simp [hs, ht]
  rw [put_item, List.filter_cons, if_pos hpred]
  rw [List.count_cons_self]
  have hnot : e ∉ (store.filter
      (fun x => ¬ (x.agent_id = e.agent_id ∧ x.timestamp = e.timestamp))).filter
      (fun x => x.agent_id = e.agent_id ∧ s ≤ x.timestamp ∧ x.timestamp ≤ t) := by
    intro hmem
    have h1 := List.of_mem_filter (List.mem_of_mem_filter hmem)
    simp at h1
  rw [List.count_eq_zero_of_not_mem hnot]

/-- Witness for `put_then_query_returns_event_once` on the empty store. -/
theorem put_then_query_returns_event_once_witness :
    put iso_sample [] exResp200 = .ok (put_item [] exResp200) ∧
    (query_with_pagination (put_item [] exResp200) exResp200.agent_id
      "2024-01-01" "2024-12-31").count exResp200 = 1 :=
  put_then_query_returns_event_once iso_sample [] exResp200
    "2024-01-01" "2024-12-31" (by decide) (by simp)
    (by rw [String.le_iff_toList_le]; decide)
    (by rw [String.le_iff_toList_le]; decide)

/-- C7: `query_with_pagination` returns exactly the stored events of the
agent with timestamp in the closed interval `[start, end]` (a permutation
of that filter of the store), sorted by timestamp ascending; when
`end < start` the result is the empty list (and no error is raised — the
function is total). -/
theorem query_by_agent_and_range_exact (store : List AgentEvent)
    (aid s t : String) :
    (query_with_pagination store aid s t).Perm
      (store.filter (fun x => x.agent_id = aid ∧
        s ≤ x.timestamp ∧ x.timestamp ≤ t)) ∧
    (query_with_pagination store aid s t).Sorted tsLe ∧
    (t < s → query_with_pagination store aid s t = []) := by
  refine ⟨List.perm_insertionSort tsLe _,
    List.sorted_insertionSort tsLe _, fun hts => ?_⟩
  have hfil : store.filter (fun x => x.agent_id = aid ∧
      s ≤ x.timestamp ∧ x.timestamp ≤ t) = [] := by
    rw [List.filter_eq_nil_iff]
    intro x _
    simp only [decide_eq_true_eq, not_and]
    intro _ hsx hxt
    exact absurd (le_trans hsx hxt) (not_le_of_lt hts)
  rw [query_with_pagination, hfil]
  rfl

/-- Witness for `query_by_agent_and_range_exact`: an empty range on a
one-event store yields the empty list. -/
theorem query_by_agent_and_range_exact_witness :
    query_with_pagination [exResp200] "agent-1" "2024-02-01" "2024-01-01" =
      [] :=
  (query_by_agent_and_range_exact [exResp200] "agent-1" "2024-02-01"
    "2024-01-01").2.2 (by rw [String.lt_iff_toList_lt]; decide)

/-- C8: the KPI period-over-period change compares the same aggregate over
the current window and the equal-length prior window as
`(current - prior) / prior * 100` whenever the prior aggregate is nonzero
(`prior = 0` is reported as an increase of 100%, one of the two policies
the spec leaves open — see `kpi_percentage_change`). -/
theorem kpi_change_formula (aggregate : List AgentEvent → ℚ)
    (currentEvents priorEvents : List AgentEvent)
    (h : aggregate priorEvents ≠ 0) :
    kpi_change_for aggregate currentEvents priorEvents =
      (aggregate currentEvents - aggregate priorEvents) /
        aggregate priorEvents * 100 := by
  simp [kpi_change_for, kpi_percentage_change, h]

/-- Witness for `kpi_change_formula`: aggregating by event count over a
one-event current window and a one-event prior window gives 0% change. -/
theorem kpi_change_formula_witness :
    kpi_change_for (fun evs => (evs.length : ℚ)) [exResp200]
      [exRespNoTime] = 0 :=
  (kpi_change_formula (fun evs => (evs.length : ℚ)) [exResp200]
    [exRespNoTime] (by norm_num)).trans (by norm_num)

/-- C9: requesting metrics for an agent unknown to the store (no events
recorded for it) fails with `NotFoundError`, which the request boundary
maps to HTTP status 404; no metrics object is returned. -/
theorem metrics_unknown_agent_404 (store : List AgentEvent)
    (aid start_date end_date : String)
    (h : agent_known store aid = false) :
    get_agent_metrics_endpoint store aid start_date end_date =
      .error (.notFound "Agent not found") ∧
    http_status (.notFound "Agent not found") = 404 := by
  refine ⟨?_, rfl⟩
  simp [get_agent_metrics_endpoint, h]

/-- Witness for `metrics_unknown_agent_404` on the empty store. -/
theorem metrics_unknown_agent_404_witness :
    get_agent_metrics_endpoint [] "unknown-agent" "2024-01-01"
      "2024-01-07" = .error (.notFound "Agent not found") :=
  (metrics_unknown_agent_404 [] "unknown-agent" "2024-01-01" "2024-01-07"
    (by decide)).1

/-- C10: in the frontend API client, `getAgentMetrics` called with
`days = 0` builds a query carrying no `days` parameter (the JavaScript
truthiness check drops the zero, so the server-side default window
applies), and `getEvents` with `limit = 0` builds a query carrying no
`limit` parameter. -/
theorem zero_params_dropped_from_query (startDate endDate agentId
    messageType : Option String) :
    ((getAgentMetricsQuery (some 0) startDate endDate).map
      Prod.fst).contains "days" = false ∧
    ((getEventsQuery agentId messageType startDate endDate (some 0)).map
      Prod.fst).contains "limit" = false := by
  have hd : truthyJsNum (some (0 : Int)) = false := by decide
  constructor
  · rcases startDate with _ | s <;> rcases endDate with _ | t <;>
      simp only [getAgentMetricsQuery, hd, Bool.false_eq_true, if_false] <;>
      (try split_ifs) <;>
      simp only [List.map_append, List.map_cons, List.map_nil,
        List.nil_append, List.append_nil] <;>
      decide
  · rcases agentId with _ | a <;> rcases messageType with _ | m <;>
      rcases startDate with _ | s <;> rcases endDate with _ | t <;>
      simp only [getEventsQuery, hd, Bool.false_eq_true, if_false] <;>
      (try split_ifs) <;>
      simp only [List.map_append, List.map_cons, List.map_nil,
        List.nil_append, List.append_nil] <;>
      decide
